import Mathlib

/-
Verification of the slyde-bot ephemeral credential subsystem.

This file gives a shallow embedding of the credential registries of the
repository and proves (or refutes) the specification claims about them.
The embedded pieces are:
  - TokenService (src/services/tokenService.ts): login tokens, pending
    RIDs (with JSON-on-disk persistence), pending claim codes, and the
    periodic cleanup sweep;
  - RidService (src/services/supabaseService.ts): miniapp request ids
    and their cleanup sweep;
  - RateLimiter (src/middleware/rateLimit.ts): fixed-window counter;
  - AuditLog (src/services/auditLog.ts): in-memory buffer with flush.

Modelling conventions:
  - the JavaScript clock (Date.now, new Date) is an explicit `now : Nat`
    argument, in milliseconds;
  - a JavaScript Map is an insertion-ordered association list
    `List (String × V)`; `mfind` is Map.get, `mset` is Map.set (which
    keeps the position of an existing key), `mdel` is Map.delete;
  - `crypto.randomBytes` / sha256 outputs are oracle inputs: the fresh
    secret or hash is a parameter of the generating operation;
  - file-system effects (`saveRIDsToFile`, audit flushes) are modelled
    by an explicit disk component of the state.
-/

section AssocMap

variable {V : Type}

/-- Lookup in an insertion-ordered association list (JavaScript Map.get). -/
def mfind : List (String × V) → String → Option V
  | [], _ => none
  | (k, v) :: rest, key => if k = key then some v else mfind rest key

/-- Insert or overwrite (JavaScript Map.set: an existing key keeps its
position in iteration order; a new key is appended). -/
def mset : List (String × V) → String → V → List (String × V)
  | [], key, v => [(key, v)]
  | (k, w) :: rest, key, v =>
    if k = key then (key, v) :: rest else (k, w) :: mset rest key v

/-- Remove a key (JavaScript Map.delete). -/
def mdel : List (String × V) → String → List (String × V)
  | [], _ => []
  | (k, v) :: rest, key =>
    if k = key then mdel rest key else (k, v) :: mdel rest key

end AssocMap

/-! ## TokenService (src/services/tokenService.ts) -/

/-- LoginToken record of tokenService.ts. -/
structure LoginToken where
  token : String
  telegramId : Nat
  createdAt : Nat
  expiresAt : Nat
  used : Bool
deriving DecidableEq

/-- PendingRID record of tokenService.ts. -/
structure PendingRID where
  rid : String
  telegramId : Nat
  createdAt : Nat
  expiresAt : Nat
  claimed : Bool
  claimedAt : Option Nat := none
  clientIp : Option String := none
deriving DecidableEq

/-- PendingLogin (claim code) record of tokenService.ts. -/
structure PendingLogin where
  claimCode : String
  claimCodeHash : String
  telegramId : Nat
  createdAt : Nat
  expiresAt : Nat
  pinVerified : Bool
  usedAt : Option Nat := none
deriving DecidableEq

/-- The mutable state of the TokenService singleton: the three
registries plus the contents of the `.rids.json` snapshot file
(`ridDisk` models what `saveRIDsToFile` has written). -/
structure TokenServiceState where
  tokens : List (String × LoginToken)
  pendingRIDs : List (String × PendingRID)
  pendingLogins : List (String × PendingLogin)
  ridDisk : List (String × PendingRID)
deriving DecidableEq

/-- Result shape of the consume/claim operations
(`{ valid, telegramId?, error? }` in the source). -/
inductive ConsumeResult where
  | ok (telegramId : Nat)
  | err (msg : String)
deriving DecidableEq

/-- tokenTTL = 5 * 60 * 1000 ms. -/
def tokenTTL : Nat := 5 * 60 * 1000

/-- ridTTL = 15 * 60 * 1000 ms (same value in tokenService.ts and in
RidService of supabaseService.ts). -/
def ridTTL : Nat := 15 * 60 * 1000

/-- claimCodeTTL = 15 * 60 * 1000 ms. -/
def claimCodeTTL : Nat := 15 * 60 * 1000

/-- saveRIDsToFile: writes the whole pendingRIDs map to `.rids.json`. -/
def saveRIDsToFile (s : TokenServiceState) : TokenServiceState :=
  { s with ridDisk := s.pendingRIDs }

/-- generateLoginToken: inserts a fresh unused token with a 5-minute TTL.
The random secret is the `token` parameter. -/
def generateLoginToken (now : Nat) (token : String) (telegramId : Nat)
    (s : TokenServiceState) : TokenServiceState :=
  let lt : LoginToken :=
    { token := token, telegramId := telegramId, createdAt := now,
      expiresAt := now + tokenTTL, used := false }
  { s with tokens := mset s.tokens token lt }

/-- verifyAndConsumeToken: not-found, then used, then expiry (which
evicts), else marks used and returns the telegram id. -/
def verifyAndConsumeToken (now : Nat) (token : String)
    (s : TokenServiceState) : ConsumeResult × TokenServiceState :=
  match mfind s.tokens token with
  | none => (.err "Token not found", s)
  | some lt =>
    if lt.used then
      (.err "Token already used", s)
    else if lt.expiresAt < now then
      (.err "Token expired", { s with tokens := mdel s.tokens token })
    else
      (.ok lt.telegramId,
        { s with tokens := mset s.tokens token ({ lt with used := true }) })

/-- generatePendingRID: inserts a fresh unclaimed RID with a 15-minute
TTL and persists the registry to disk before returning. -/
def generatePendingRID (now : Nat) (rid : String) (telegramId : Nat)
    (clientIp : Option String) (s : TokenServiceState) : TokenServiceState :=
  let pr : PendingRID :=
    { rid := rid, telegramId := telegramId, createdAt := now,
      expiresAt := now + ridTTL, claimed := false, claimedAt := none,
      clientIp := clientIp }
  saveRIDsToFile { s with pendingRIDs := mset s.pendingRIDs rid pr }

/-- claimPendingRID: not-found, then already-claimed, then expiry (which
evicts and persists), else marks claimed and persists. -/
def claimPendingRID (now : Nat) (rid : String) (s : TokenServiceState) :
    ConsumeResult × TokenServiceState :=
  match mfind s.pendingRIDs rid with
  | none => (.err "RID not found", s)
  | some pr =>
    if pr.claimed then
      (.err "RID already claimed", s)
    else if pr.expiresAt < now then
      (.err "RID expired",
        saveRIDsToFile { s with pendingRIDs := mdel s.pendingRIDs rid })
    else
      let pr2 : PendingRID := { pr with claimed := true, claimedAt := some now }
      (.ok pr.telegramId,
        saveRIDsToFile { s with pendingRIDs := mset s.pendingRIDs rid pr2 })

/-- Fold of the source's latest-by-createdAt scan over Map iteration
order: keep the first matching record, replace it only on a strictly
newer createdAt. -/
def latestOf (keep : PendingRID → Bool) (l : List PendingRID) :
    Option PendingRID :=
  l.foldl
    (fun acc r =>
      if keep r then
        match acc with
        | none => some r
        | some cur => if cur.createdAt < r.createdAt then some r else some cur
      else acc)
    none

/-- First definition of getLatestPendingRID(telegramId) in the class
(tokenService.ts lines 539-558): latest unclaimed, unexpired RID of the
given user.  In the compiled JavaScript this definition is dead code:
the second definition of the same method name below overwrites it on
the class prototype. -/
def getLatestPendingRID_byUser (now : Nat) (telegramId : Nat)
    (s : TokenServiceState) : Option String :=
  (latestOf
      (fun r =>
        decide (r.telegramId = telegramId) && !r.claimed &&
          decide (now < r.expiresAt))
      (s.pendingRIDs.map Prod.snd)).map PendingRID.rid

/-- Second definition of getLatestPendingRID() (tokenService.ts lines
565-598): latest unclaimed, unexpired RID created within the last
5 minutes, ignoring the subject entirely.  (`now - 300000` uses Nat
truncation; for `now ≥ 300000`, i.e. any realistic millisecond clock,
this agrees with the source's signed arithmetic.) -/
def getLatestPendingRID_global (now : Nat) (s : TokenServiceState) :
    Option (String × Nat) :=
  (latestOf
      (fun r =>
        !r.claimed && decide (now - 5 * 60 * 1000 < r.createdAt) &&
          decide (now < r.expiresAt))
      (s.pendingRIDs.map Prod.snd)).map (fun r => (r.rid, r.telegramId))

/-- The method actually invoked by `tokenService.getLatestPendingRID(telegramId)`:
JavaScript classes keep only the last definition of a method name, and a
call with an extra argument ignores it, so the subject-hinted call
dispatches to the parameterless global lookup. -/
def getLatestPendingRID_effective (now : Nat) (_telegramId : Nat)
    (s : TokenServiceState) : Option (String × Nat) :=
  getLatestPendingRID_global now s

/-- generateClaimCode: stores a fresh pending login keyed by the code
hash, with pinVerified = false.  The random display code and its sha256
hash are the `claimCode` / `claimCodeHash` parameters. -/
def generateClaimCode (now : Nat) (claimCode claimCodeHash : String)
    (telegramId : Nat) (s : TokenServiceState) : TokenServiceState :=
  let pl : PendingLogin :=
    { claimCode := claimCode, claimCodeHash := claimCodeHash,
      telegramId := telegramId, createdAt := now,
      expiresAt := now + claimCodeTTL, pinVerified := false, usedAt := none }
  { s with pendingLogins := mset s.pendingLogins claimCodeHash pl }

/-- Result shape of verifyPin (`{ valid, claimCode?, error? }`). -/
inductive PinResult where
  | ok (claimCode : String)
  | err (msg : String)
deriving DecidableEq

/-- verifyPin: not-found, then expiry (which evicts), else marks the
record pinVerified and returns the plaintext code.  It does not consume
the code. -/
def verifyPin (now : Nat) (claimCodeHash : String) (s : TokenServiceState) :
    PinResult × TokenServiceState :=
  match mfind s.pendingLogins claimCodeHash with
  | none => (.err "Code not found", s)
  | some pl =>
    if pl.expiresAt < now then
      (.err "Code expired",
        { s with pendingLogins := mdel s.pendingLogins claimCodeHash })
    else
      let pl2 : PendingLogin := { pl with pinVerified := true }
      (.ok pl.claimCode,
        { s with pendingLogins := mset s.pendingLogins claimCodeHash pl2 })

/-- claimCode: not-found, then already-used, then expiry (which evicts),
then the pinVerified gate, else marks usedAt and returns the telegram id. -/
def claimCode (now : Nat) (claimCodeHash : String) (s : TokenServiceState) :
    ConsumeResult × TokenServiceState :=
  match mfind s.pendingLogins claimCodeHash with
  | none => (.err "Code not found", s)
  | some pl =>
    if pl.usedAt.isSome then
      (.err "Code already used", s)
    else if pl.expiresAt < now then
      (.err "Code expired",
        { s with pendingLogins := mdel s.pendingLogins claimCodeHash })
    else if !pl.pinVerified then
      (.err "Code not verified", s)
    else
      let pl2 : PendingLogin := { pl with usedAt := some now }
      (.ok pl.telegramId,
        { s with pendingLogins := mset s.pendingLogins claimCodeHash pl2 })

/-- A login token is deleted by the sweep when it is expired AND used. -/
def tokenSwept (now : Nat) (t : LoginToken) : Bool :=
  decide (t.expiresAt < now) && t.used

/-- A pending RID is deleted by the sweep when it is expired AND claimed. -/
def ridSwept (now : Nat) (r : PendingRID) : Bool :=
  decide (r.expiresAt < now) && r.claimed

/-- A claim code is deleted by the sweep when it is expired, regardless
of whether it was used (tokenService.ts lines 744-754: "Delete if
expired (regardless of used status for cleanup)"). -/
def loginSwept (now : Nat) (l : PendingLogin) : Bool :=
  decide (l.expiresAt < now)

/-- One tick of TokenService.startCleanupInterval: filters the three
registries with their sweep predicates and, if anything was removed,
persists the RID registry to disk. -/
def cleanupTick (now : Nat) (s : TokenServiceState) : TokenServiceState :=
  let tokens := s.tokens.filter fun p => ! tokenSwept now p.2
  let rids := s.pendingRIDs.filter fun p => ! ridSwept now p.2
  let logins := s.pendingLogins.filter fun p => ! loginSwept now p.2
  let cleaned := (s.tokens.length - tokens.length) +
    (s.pendingRIDs.length - rids.length) +
    (s.pendingLogins.length - logins.length)
  { tokens := tokens, pendingRIDs := rids, pendingLogins := logins,
    ridDisk := if 0 < cleaned then rids else s.ridDisk }

/-- A sequence of cleanup ticks at the given times. -/
def cleanupTicks (ticks : List Nat) (s : TokenServiceState) :
    TokenServiceState :=
  ticks.foldl (fun acc m => cleanupTick m acc) s

/-! ## RidService (src/services/supabaseService.ts) -/

/-- RequestId record of RidService. -/
structure RequestId where
  rid : String
  telegramId : Nat
  createdAt : Nat
  expiresAt : Nat
  used : Bool
  intent : String
  context : Option String := none
deriving DecidableEq

/-- State of the RidService singleton.  The source keeps its `rids` map
purely in memory and performs no file writes; `disk` models the durable
snapshot (the analogue of TokenServiceState.ridDisk) and, faithfully to
the source, is never written by any RidService operation. -/
structure RidServiceState where
  rids : List (String × RequestId)
  disk : List (String × RequestId)
deriving DecidableEq

/-- RidService.generateRid: inserts a fresh unused RID with a 15-minute
TTL.  No persistence in the source. -/
def generateRid (now : Nat) (rid : String) (telegramId : Nat)
    (intent : String) (context : Option String) (s : RidServiceState) :
    RidServiceState :=
  let r : RequestId :=
    { rid := rid, telegramId := telegramId, createdAt := now,
      expiresAt := now + ridTTL, used := false, intent := intent,
      context := context }
  { s with rids := mset s.rids rid r }

/-- RidService.verifyAndConsumeRid: not-found, then already-used, then
expiry (which evicts), else marks used. -/
def verifyAndConsumeRid (now : Nat) (rid : String) (s : RidServiceState) :
    ConsumeResult × RidServiceState :=
  match mfind s.rids rid with
  | none => (.err "RID not found", s)
  | some r =>
    if r.used then
      (.err "already_used", s)
    else if r.expiresAt < now then
      (.err "RID expired", { s with rids := mdel s.rids rid })
    else
      (.ok r.telegramId,
        { s with rids := mset s.rids rid ({ r with used := true }) })

/-- A miniapp RID is deleted by RidService's sweep when it is expired
AND used. -/
def requestSwept (now : Nat) (r : RequestId) : Bool :=
  decide (r.expiresAt < now) && r.used

/-- One tick of RidService.startCleanupInterval. -/
def ridCleanupTick (now : Nat) (s : RidServiceState) : RidServiceState :=
  { s with rids := s.rids.filter fun p => ! requestSwept now p.2 }

/-- A sequence of RidService cleanup ticks. -/
def ridCleanupTicks (ticks : List Nat) (s : RidServiceState) :
    RidServiceState :=
  ticks.foldl (fun acc m => ridCleanupTick m acc) s

/-! ## RateLimiter (src/middleware/rateLimit.ts) -/

/-- RateLimitEntry of rateLimit.ts. -/
structure RateLimitEntry where
  count : Nat
  resetAt : Nat
deriving DecidableEq

/-- windowMs / maxRequests configuration of a limiter instance. -/
structure RateLimitOptions where
  windowMs : Nat
  maxRequests : Nat
deriving DecidableEq

/-- Outcome of one middleware invocation: pass the request through, or
answer 429 rate_limited with a retry_after value in seconds. -/
inductive RateDecision where
  | allowed
  | denied (retryAfter : Nat)
deriving DecidableEq

/-- One invocation of RateLimiter.middleware for a given key: create or
reset the window entry on first use or after resetAt, otherwise
increment the count unconditionally and deny once it exceeds
maxRequests (retry_after = ceil((resetAt - now) / 1000)). -/
def rlStep (o : RateLimitOptions) (now : Nat) (key : String)
    (store : List (String × RateLimitEntry)) :
    RateDecision × List (String × RateLimitEntry) :=
  match mfind store key with
  | none =>
    (.allowed, mset store key ⟨1, now + o.windowMs⟩)
  | some e =>
    if e.resetAt ≤ now then
      (.allowed, mset store key ⟨1, now + o.windowMs⟩)
    else
      let cnt := e.count + 1
      if o.maxRequests < cnt then
        (.denied ((e.resetAt - now + 999) / 1000), mset store key ⟨cnt, e.resetAt⟩)
      else
        (.allowed, mset store key ⟨cnt, e.resetAt⟩)

/-- Store after `k` requests on `key`, the i-th arriving at time
`times i`, starting from an empty store. -/
def rlStateAfter (o : RateLimitOptions) (key : String) (times : Nat → Nat) :
    Nat → List (String × RateLimitEntry)
  | 0 => []
  | k + 1 => (rlStep o (times k) key (rlStateAfter o key times k)).2

/-- Decision handed to the (k+1)-th request (0-based index k). -/
def rlDecisionAt (o : RateLimitOptions) (key : String) (times : Nat → Nat)
    (k : Nat) : RateDecision :=
  (rlStep o (times k) key (rlStateAfter o key times k)).1

/-! ## AuditLog (src/services/auditLog.ts) -/

/-- AuditEntry of auditLog.ts. -/
structure AuditEntry where
  timestamp : Nat
  action : String
  tg_id : Option Nat := none
  app_user_id : Option String := none
  status : String
  error : Option String := none
  ip : Option String := none
  user_agent : Option String := none
deriving DecidableEq

/-- State of the AuditLog singleton: the in-memory buffer and the
contents appended so far to the on-disk jsonl file. -/
structure AuditLogState where
  inMemoryLogs : List AuditEntry
  disk : List AuditEntry
deriving DecidableEq

/-- maxInMemory = 1000. -/
def maxInMemory : Nat := 1000

/-- The actions that force an immediate flush in AuditLog.log. -/
def criticalActions : List String :=
  ["auth_verified", "auth_failed", "invalid_signature", "rate_limited"]

namespace AuditLog

/-- AuditLog.flush: appends the whole buffer to disk and empties it
(no-op on an empty buffer). -/
def flush (s : AuditLogState) : AuditLogState :=
  if s.inMemoryLogs.isEmpty then s
  else { inMemoryLogs := [], disk := s.disk ++ s.inMemoryLogs }

/-- AuditLog.log: push the entry, drop the oldest entry once the buffer
exceeds maxInMemory, and flush immediately for security-critical
actions. -/
def log (e : AuditEntry) (s : AuditLogState) : AuditLogState :=
  let m1 := s.inMemoryLogs ++ [e]
  let m2 := if maxInMemory < m1.length then m1.drop 1 else m1
  let s1 : AuditLogState := { s with inMemoryLogs := m2 }
  if criticalActions.contains e.action then flush s1 else s1

/-- AuditLog.getRecent: `slice(-limit)` of the in-memory buffer
(the whole buffer when limit = 0, as in JavaScript). -/
def getRecent (limit : Nat) (s : AuditLogState) : List AuditEntry :=
  if limit = 0 then s.inMemoryLogs
  else s.inMemoryLogs.drop (s.inMemoryLogs.length - limit)

/-- AuditLog.getForUser: filter the buffer by tg_id, then `slice(-limit)`. -/
def getForUser (telegramId : Nat) (limit : Nat) (s : AuditLogState) :
    List AuditEntry :=
  let l := s.inMemoryLogs.filter fun e => e.tg_id == some telegramId
  if limit = 0 then l else l.drop (l.length - limit)

end AuditLog

/-! ## Operation traces used by the once-only claims -/

/-- State after a list of further verifyAndConsumeToken calls, each
given as (time, secret). -/
def tokenTrace (ops : List (Nat × String)) (s : TokenServiceState) :
    TokenServiceState :=
  ops.foldl (fun acc op => (verifyAndConsumeToken op.1 op.2 acc).2) s

/-- State after a list of further claimPendingRID calls. -/
def ridTrace (ops : List (Nat × String)) (s : TokenServiceState) :
    TokenServiceState :=
  ops.foldl (fun acc op => (claimPendingRID op.1 op.2 acc).2) s

/-- State after a list of further claimCode calls. -/
def codeTrace (ops : List (Nat × String)) (s : TokenServiceState) :
    TokenServiceState :=
  ops.foldl (fun acc op => (claimCode op.1 op.2 acc).2) s

/-! ## Association-map lemmas -/

theorem mfind_mset_self {V : Type} (m : List (String × V)) (k : String) (v : V) :
    mfind (mset m k v) k = some v := by
  induction m with
  | nil => simp [mset, mfind]
  | cons p rest ih =>
    obtain ⟨k1, v1⟩ := p
    by_cases h : k1 = k
    · simp [mset, mfind, h]
    · simp [mset, mfind, h, ih]

theorem mfind_mset_ne {V : Type} (m : List (String × V)) (k k2 : String) (v : V)
    (h : k2 ≠ k) : mfind (mset m k v) k2 = mfind m k2 := by
  have h2 : k ≠ k2 := Ne.symm h
  induction m with
  | nil => simp [mset, mfind, h2]
  | cons p rest ih =>
    obtain ⟨k1, v1⟩ := p
    by_cases h1 : k1 = k
    · subst h1
      simp [mset, mfind, h2]
    · simp [mset, mfind, h1, ih]

theorem mfind_mdel_self {V : Type} (m : List (String × V)) (k : String) :
    mfind (mdel m k) k = none := by
  induction m with
  | nil => simp [mdel, mfind]
  | cons p rest ih =>
    obtain ⟨k1, v1⟩ := p
    by_cases h : k1 = k
    · simp [mdel, h, ih]
    · simp [mdel, mfind, h, ih]

theorem mfind_mdel_ne {V : Type} (m : List (String × V)) (k k2 : String)
    (h : k2 ≠ k) : mfind (mdel m k) k2 = mfind m k2 := by
  have h2 : k ≠ k2 := Ne.symm h
  induction m with
  | nil => simp [mdel]
  | cons p rest ih =>
    obtain ⟨k1, v1⟩ := p
    by_cases h1 : k1 = k
    · subst h1
      simp [mdel, mfind, h2, ih]
    · simp [mdel, mfind, h1, ih]

/-- An entry found by `mfind` and kept by a filter is still found,
with the same value, after the filter. -/
theorem mfind_filter_keep {V : Type} (f : String × V → Bool) (m : List (String × V))
    (k : String) (v : V) (hf : mfind m k = some v) (hk : f (k, v) = true) :
    mfind (m.filter f) k = some v := by
  induction m with
  | nil => simp [mfind] at hf
  | cons p rest ih =>
    obtain ⟨k1, v1⟩ := p
    by_cases h : k1 = k
    · subst h
      simp [mfind] at hf
      subst hf
      simp [List.filter_cons, hk, mfind]
    · simp [mfind, h] at hf
      rw [List.filter_cons]
      cases hfp : f (k1, v1) <;> simp [mfind, h, ih hf]

/-! ## Sweep-predicate bridges -/

theorem not_tokenSwept_iff (now : Nat) (t : LoginToken) :
    ((! tokenSwept now t) = true) ↔ ¬(t.expiresAt < now ∧ t.used = true) := by
  by_cases h1 : t.expiresAt < now <;> by_cases h2 : t.used <;>
    simp [tokenSwept, h1, h2]

theorem not_ridSwept_iff (now : Nat) (r : PendingRID) :
    ((! ridSwept now r) = true) ↔ ¬(r.expiresAt < now ∧ r.claimed = true) := by
  by_cases h1 : r.expiresAt < now <;> by_cases h2 : r.claimed <;>
    simp [ridSwept, h1, h2]

theorem not_loginSwept_iff (now : Nat) (l : PendingLogin) :
    ((! loginSwept now l) = true) ↔ ¬(l.expiresAt < now) := by
  by_cases h1 : l.expiresAt < now <;> simp [loginSwept, h1]

theorem not_requestSwept_iff (now : Nat) (r : RequestId) :
    ((! requestSwept now r) = true) ↔ ¬(r.expiresAt < now ∧ r.used = true) := by
  by_cases h1 : r.expiresAt < now <;> by_cases h2 : r.used <;>
    simp [requestSwept, h1, h2]

/-! ## C1: subject-hinted RID lookup -/

/-- C1: the subject-hinted RID lookup used by the handshake claim
telegramId mode violates the claim.  Because the class defines
getLatestPendingRID twice and the second, parameterless definition
shadows the first, the call `getLatestPendingRID(telegramId)` dispatches
to the global 5-minute-window lookup and ignores the subject hint: on a
registry holding a single unclaimed, unexpired RID belonging to subject
99, the lookup invoked with subject hint 1 returns that RID, a RID
whose subjectId differs from the hint.  The shadowed first definition
(the one the claim and spec describe) would have returned nothing. -/
theorem C1_subject_hinted_lookup_returns_other_subject :
    getLatestPendingRID_effective 400000 1
        ⟨[], [("r99", ⟨"r99", 99, 200000, 1000000, false, none, none⟩)], [], []⟩ =
      some ("r99", 99)
    ∧ getLatestPendingRID_byUser 400000 1
        ⟨[], [("r99", ⟨"r99", 99, 200000, 1000000, false, none, none⟩)], [], []⟩ =
      none
    ∧ (99 : Nat) ≠ 1 :=
  ⟨by decide, by decide, by decide⟩

/-! ## C4: one garbage-collection tick -/

/-- C4 counterexample: the claim-code registry violates the claim.  The
state holds one claim code that is expired at the tick time (expiresAt
= 20 < 21) and still unconsumed (usedAt = none); a single cleanup tick
removes it, although the claim says an expired-but-unconsumed entry is
never removed. -/
theorem C4_counterexample_sweep_removes_unused_code :
    mfind (⟨[], [], [("h", ⟨"CODE", "h", 5, 0, 20, false, none⟩)], []⟩ :
        TokenServiceState).pendingLogins "h" =
      some ⟨"CODE", "h", 5, 0, 20, false, none⟩
    ∧ (⟨"CODE", "h", 5, 0, 20, false, none⟩ : PendingLogin).usedAt = none
    ∧ (20 : Nat) < 21
    ∧ mfind (cleanupTick 21
          ⟨[], [], [("h", ⟨"CODE", "h", 5, 0, 20, false, none⟩)], []⟩).pendingLogins
        "h" = none :=
  ⟨by decide, by decide, by decide, by decide⟩

/-- C4 (amended): one tick of the sweep keeps an entry exactly when the
registry's sweep condition does not hold: for login tokens, TokenService
RIDs and RidService request ids the removed entries are exactly those
both expired and consumed; for claim codes the removed entries are
exactly the expired ones, whether consumed or not. -/
theorem C4_sweep_exact_amended :
    ∀ (now : Nat) (s : TokenServiceState) (q : RidServiceState) (k : String)
      (lt : LoginToken) (pr : PendingRID) (pl : PendingLogin) (r : RequestId),
      ((k, lt) ∈ (cleanupTick now s).tokens ↔
        ((k, lt) ∈ s.tokens ∧ ¬(lt.expiresAt < now ∧ lt.used = true)))
      ∧ ((k, pr) ∈ (cleanupTick now s).pendingRIDs ↔
        ((k, pr) ∈ s.pendingRIDs ∧ ¬(pr.expiresAt < now ∧ pr.claimed = true)))
      ∧ ((k, pl) ∈ (cleanupTick now s).pendingLogins ↔
        ((k, pl) ∈ s.pendingLogins ∧ ¬(pl.expiresAt < now)))
      ∧ ((k, r) ∈ (ridCleanupTick now q).rids ↔
        ((k, r) ∈ q.rids ∧ ¬(r.expiresAt < now ∧ r.used = true))) := by
  intro now s q k lt pr pl r
  refine ⟨?_, ?_, ?_, ?_⟩
  · show ((k, lt) ∈ s.tokens.filter fun p => ! tokenSwept now p.2) ↔ _
    rw [List.mem_filter]
    exact and_congr_right fun _ => not_tokenSwept_iff now lt
  · show ((k, pr) ∈ s.pendingRIDs.filter fun p => ! ridSwept now p.2) ↔ _
    rw [List.mem_filter]
    exact and_congr_right fun _ => not_ridSwept_iff now pr
  · show ((k, pl) ∈ s.pendingLogins.filter fun p => ! loginSwept now p.2) ↔ _
    rw [List.mem_filter]
    exact and_congr_right fun _ => not_loginSwept_iff now pl
  · show ((k, r) ∈ q.rids.filter fun p => ! requestSwept now p.2) ↔ _
    rw [List.mem_filter]
    exact and_congr_right fun _ => not_requestSwept_iff now r

/-! ## C6: counter growth under denial -/

/-- C6 counterexample: with maxRequests = 2, the third request in the
same window is denied, yet the stored count after it is 3 > 2 — the
denied request did mutate the counter past the configured maximum
(entry.count++ runs before the limit check). -/
theorem C6_counterexample_counter_grows_past_max :
    rlDecisionAt ⟨60000, 2⟩ "k" (fun _ => 0) 2 = .denied 60
    ∧ mfind (rlStateAfter ⟨60000, 2⟩ "k" (fun _ => 0) 3) "k" = some ⟨3, 60000⟩
    ∧ 2 < 3 :=
  ⟨by decide, by decide, by decide⟩

/-- C6 (amended): every request that hits an unexpired window entry —
allowed or denied — increments the stored count by exactly one, so the
counter equals the number of requests made in the window and is not
capped at maxRequests. -/
theorem C6_denied_requests_still_increment :
    ∀ (o : RateLimitOptions) (now : Nat) (key : String)
      (store : List (String × RateLimitEntry)) (e : RateLimitEntry),
      mfind store key = some e → now < e.resetAt →
      mfind ((rlStep o now key store).2) key = some ⟨e.count + 1, e.resetAt⟩ := by
  intro o now key store e hf hlt
  unfold rlStep
  rw [hf]
  have hle : ¬ e.resetAt ≤ now := Nat.not_le.mpr hlt
  by_cases hm : o.maxRequests < e.count + 1 <;> simp [hle, hm, mfind_mset_self]

/-- C6 witness: a concrete denied in-window request increments the
count from 2 to 3. -/
theorem C6_denied_requests_still_increment_witness :
    mfind [("k", (⟨2, 60000⟩ : RateLimitEntry))] "k" = some ⟨2, 60000⟩
    ∧ (0 : Nat) < 60000
    ∧ mfind ((rlStep ⟨60000, 2⟩ 0 "k" [("k", ⟨2, 60000⟩)]).2) "k" =
        some ⟨3, 60000⟩ :=
  ⟨by decide, by decide,
    C6_denied_requests_still_increment ⟨60000, 2⟩ 0 "k" [("k", ⟨2, 60000⟩)]
      ⟨2, 60000⟩ (by decide) (by decide)⟩

/-! ## C8: RID persistence -/

/-- C8 counterexample: the boundary Issue-request-id operation
(RidService.generateRid behind POST /miniapp/session/request-id) inserts
a RID into its registry but writes nothing durable: starting from an
empty service, the issued RID is present in memory while the durable
snapshot is still empty when the operation returns. -/
theorem C8_counterexample_boundary_rid_not_persisted :
    mfind (generateRid 5 "r1" 7 "auth" none ⟨[], []⟩).rids "r1" =
      some ⟨"r1", 7, 5, 900005, false, "auth", none⟩
    ∧ (generateRid 5 "r1" 7 "auth" none ⟨[], []⟩).disk = [] :=
  ⟨by decide, by decide⟩

/-- C8 (amended): TokenService RID issuance always leaves the durable
snapshot equal to the registry, and TokenService RID claiming either
changes nothing or leaves the snapshot equal to the registry; the
RidService registry behind the boundary Issue/Consume request id
operations never touches the durable snapshot at all. -/
theorem C8_rid_persistence_amended :
    (∀ (now : Nat) (rid : String) (tid : Nat) (ip : Option String)
        (s : TokenServiceState),
      (generatePendingRID now rid tid ip s).ridDisk =
        (generatePendingRID now rid tid ip s).pendingRIDs)
    ∧ (∀ (now : Nat) (rid : String) (s : TokenServiceState),
      (claimPendingRID now rid s).2.ridDisk =
          (claimPendingRID now rid s).2.pendingRIDs
        ∨ (claimPendingRID now rid s).2 = s)
    ∧ (∀ (now : Nat) (rid : String) (tid : Nat) (intent : String)
        (ctx : Option String) (q : RidServiceState),
      (generateRid now rid tid intent ctx q).disk = q.disk)
    ∧ (∀ (now : Nat) (rid : String) (q : RidServiceState),
      (verifyAndConsumeRid now rid q).2.disk = q.disk) := by
  refine ⟨?_, ?_, ?_, ?_⟩
  · intro now rid tid ip s
    simp [generatePendingRID, saveRIDsToFile]
  · intro now rid s
    unfold claimPendingRID
    cases hf : mfind s.pendingRIDs rid with
    | none => exact Or.inr rfl
    | some pr =>
      by_cases hc : pr.claimed
      · simp [hc]
      · by_cases he : pr.expiresAt < now
        · simp [hc, he, saveRIDsToFile]
        · simp [hc, he, saveRIDsToFile]
  · intro now rid tid intent ctx q
    simp [generateRid]
  · intro now rid q
    unfold verifyAndConsumeRid
    cases hf : mfind q.rids rid with
    | none => rfl
    | some r =>
      by_cases hu : r.used
      · simp [hu]
      · by_cases he : r.expiresAt < now
        · simp [hu, he]
        · simp [hu, he]

/-! ## C9: used check precedes expiry check -/

/-- C9: for every credential that is both already consumed and past its
expiresAt, a further consume/claim/redeem call returns the
AlreadyUsed/AlreadyClaimed error rather than Expired (the used check
runs before the expiry check), and the call leaves the whole service
state unchanged — in particular the entry is not evicted. -/
theorem C9_used_check_precedes_expiry :
    (∀ (s : TokenServiceState) (now : Nat) (t : String) (lt : LoginToken),
      mfind s.tokens t = some lt → lt.used = true → lt.expiresAt < now →
      verifyAndConsumeToken now t s = (.err "Token already used", s))
    ∧ (∀ (s : TokenServiceState) (now : Nat) (r : String) (pr : PendingRID),
      mfind s.pendingRIDs r = some pr → pr.claimed = true →
      pr.expiresAt < now →
      claimPendingRID now r s = (.err "RID already claimed", s))
    ∧ (∀ (s : TokenServiceState) (now : Nat) (h : String) (pl : PendingLogin)
        (u : Nat),
      mfind s.pendingLogins h = some pl → pl.usedAt = some u →
      pl.expiresAt < now →
      claimCode now h s = (.err "Code already used", s)) := by
  refine ⟨?_, ?_, ?_⟩
  · intro s now t lt hf hu _
    unfold verifyAndConsumeToken
    rw [hf]
    simp [hu]
  · intro s now r pr hf hc _
    unfold claimPendingRID
    rw [hf]
    simp [hc]
  · intro s now h pl u hf hu _
    unfold claimCode
    rw [hf]
    simp [hu]

/-- C9 witness: concrete consumed-and-expired entries of all three
kinds answer with the already-used error and leave the state intact. -/
theorem C9_used_check_precedes_expiry_witness :
    verifyAndConsumeToken 99 "t" ⟨[("t", ⟨"t", 7, 0, 10, true⟩)], [], [], []⟩ =
      (.err "Token already used", ⟨[("t", ⟨"t", 7, 0, 10, true⟩)], [], [], []⟩)
    ∧ claimPendingRID 99 "r"
        ⟨[], [("r", ⟨"r", 8, 0, 10, true, some 3, none⟩)], [], []⟩ =
      (.err "RID already claimed",
        ⟨[], [("r", ⟨"r", 8, 0, 10, true, some 3, none⟩)], [], []⟩)
    ∧ claimCode 99 "h" ⟨[], [], [("h", ⟨"C", "h", 9, 0, 10, true, some 4⟩)], []⟩ =
      (.err "Code already used",
        ⟨[], [], [("h", ⟨"C", "h", 9, 0, 10, true, some 4⟩)], []⟩) :=
  ⟨C9_used_check_precedes_expiry.1 _ 99 "t" ⟨"t", 7, 0, 10, true⟩
      (by decide) (by decide) (by decide),
    C9_used_check_precedes_expiry.2.1 _ 99 "r" ⟨"r", 8, 0, 10, true, some 3, none⟩
      (by decide) (by decide) (by decide),
    C9_used_check_precedes_expiry.2.2 _ 99 "h" ⟨"C", "h", 9, 0, 10, true, some 4⟩ 4
      (by decide) (by decide) (by decide)⟩

/-! ## Once-only consumption helpers -/

theorem verifyAndConsumeToken_ok_marks_used (now : Nat) (t : String)
    (s : TokenServiceState) (i : Nat)
    (h : (verifyAndConsumeToken now t s).1 = .ok i) :
    ∃ lt, mfind ((verifyAndConsumeToken now t s).2).tokens t = some lt ∧
      lt.used = true := by
  unfold verifyAndConsumeToken at h ⊢
  cases hf : mfind s.tokens t with
  | none => rw [hf] at h; simp at h
  | some lt =>
    rw [hf] at h
    by_cases hu : lt.used
    · simp [hu] at h
    · by_cases he : lt.expiresAt < now
      · simp [hu, he] at h
      · exact ⟨{ lt with used := true },
          by simp [hu, he, mfind_mset_self], rfl⟩

theorem verifyAndConsumeToken_keeps_used (n : Nat) (u t : String)
    (s : TokenServiceState) (lt : LoginToken)
    (hf : mfind s.tokens t = some lt) (hu : lt.used = true) :
    mfind ((verifyAndConsumeToken n u s).2).tokens t = some lt := by
  by_cases he : u = t
  · subst he
    unfold verifyAndConsumeToken
    rw [hf]
    simp only [hu, if_true]
    exact hf
  · have hne : t ≠ u := Ne.symm he
    unfold verifyAndConsumeToken
    cases hg : mfind s.tokens u with
    | none => exact hf
    | some lt2 =>
      by_cases hu2 : lt2.used
      · simp only [hu2, if_true]
        exact hf
      · by_cases he2 : lt2.expiresAt < n
        · simp only [hu2, he2, Bool.false_eq_true, if_false, if_true]
          rw [mfind_mdel_ne _ _ _ hne]
          exact hf
        · simp only [hu2, he2, Bool.false_eq_true, if_false]
          rw [mfind_mset_ne _ _ _ _ hne]
          exact hf

theorem tokenTrace_keeps_used (ops : List (Nat × String))
    (s : TokenServiceState) (t : String) (lt : LoginToken)
    (hf : mfind s.tokens t = some lt) (hu : lt.used = true) :
    mfind ((tokenTrace ops s).tokens) t = some lt := by
  induction ops generalizing s with
  | nil => exact hf
  | cons op rest ih =>
    simp only [tokenTrace, List.foldl_cons]
    exact ih _ (verifyAndConsumeToken_keeps_used op.1 op.2 t s lt hf hu)

theorem verifyAndConsumeToken_used_err (n : Nat) (t : String)
    (s : TokenServiceState) (lt : LoginToken)
    (hf : mfind s.tokens t = some lt) (hu : lt.used = true) :
    (verifyAndConsumeToken n t s).1 = .err "Token already used" := by
  unfold verifyAndConsumeToken
  rw [hf]
  simp [hu]

theorem claimPendingRID_ok_marks_claimed (now : Nat) (r : String)
    (s : TokenServiceState) (i : Nat)
    (h : (claimPendingRID now r s).1 = .ok i) :
    ∃ pr, mfind ((claimPendingRID now r s).2).pendingRIDs r = some pr ∧
      pr.claimed = true := by
  unfold claimPendingRID at h ⊢
  cases hf : mfind s.pendingRIDs r with
  | none => rw [hf] at h; simp at h
  | some pr =>
    rw [hf] at h
    by_cases hc : pr.claimed
    · simp [hc] at h
    · by_cases he : pr.expiresAt < now
      · simp [hc, he] at h
      · exact ⟨{ pr with claimed := true, claimedAt := some now },
          by simp [hc, he, saveRIDsToFile, mfind_mset_self], rfl⟩

theorem claimPendingRID_keeps_claimed (n : Nat) (u r : String)
    (s : TokenServiceState) (pr : PendingRID)
    (hf : mfind s.pendingRIDs r = some pr) (hc : pr.claimed = true) :
    mfind ((claimPendingRID n u s).2).pendingRIDs r = some pr := by
  by_cases he : u = r
  · subst he
    unfold claimPendingRID
    rw [hf]
    simp only [hc, if_true]
    exact hf
  · have hne : r ≠ u := Ne.symm he
    unfold claimPendingRID
    cases hg : mfind s.pendingRIDs u with
    | none => exact hf
    | some pr2 =>
      by_cases hc2 : pr2.claimed
      · simp only [hc2, if_true]
        exact hf
      · by_cases he2 : pr2.expiresAt < n
        · simp only [hc2, he2, Bool.false_eq_true, if_false, if_true,
            saveRIDsToFile]
          rw [mfind_mdel_ne _ _ _ hne]
          exact hf
        · simp only [hc2, he2, Bool.false_eq_true, if_false, saveRIDsToFile]
          rw [mfind_mset_ne _ _ _ _ hne]
          exact hf

theorem ridTrace_keeps_claimed (ops : List (Nat × String))
    (s : TokenServiceState) (r : String) (pr : PendingRID)
    (hf : mfind s.pendingRIDs r = some pr) (hc : pr.claimed = true) :
    mfind ((ridTrace ops s).pendingRIDs) r = some pr := by
  induction ops generalizing s with
  | nil => exact hf
  | cons op rest ih =>
    simp only [ridTrace, List.foldl_cons]
    exact ih _ (claimPendingRID_keeps_claimed op.1 op.2 r s pr hf hc)

theorem claimPendingRID_claimed_err (n : Nat) (r : String)
    (s : TokenServiceState) (pr : PendingRID)
    (hf : mfind s.pendingRIDs r = some pr) (hc : pr.claimed = true) :
    (claimPendingRID n r s).1 = .err "RID already claimed" := by
  unfold claimPendingRID
  rw [hf]
  simp [hc]

theorem claimCode_ok_marks_used (now : Nat) (h : String)
    (s : TokenServiceState) (i : Nat)
    (hk : (claimCode now h s).1 = .ok i) :
    ∃ pl, mfind ((claimCode now h s).2).pendingLogins h = some pl ∧
      pl.usedAt.isSome = true := by
  unfold claimCode at hk ⊢
  cases hf : mfind s.pendingLogins h with
  | none => rw [hf] at hk; simp at hk
  | some pl =>
    rw [hf] at hk
    by_cases hu : pl.usedAt.isSome
    · simp [hu] at hk
    · by_cases he : pl.expiresAt < now
      · simp [hu, he] at hk
      · by_cases hp : pl.pinVerified
        · exact ⟨{ pl with usedAt := some now },
            by simp [hu, he, hp, mfind_mset_self], rfl⟩
        · simp [hu, he, hp] at hk

theorem claimCode_keeps_used (n : Nat) (u h : String)
    (s : TokenServiceState) (pl : PendingLogin)
    (hf : mfind s.pendingLogins h = some pl) (hu : pl.usedAt.isSome = true) :
    mfind ((claimCode n u s).2).pendingLogins h = some pl := by
  by_cases he : u = h
  · subst he
    unfold claimCode
    rw [hf]
    simp only [hu, if_true]
    exact hf
  · have hne : h ≠ u := Ne.symm he
    unfold claimCode
    cases hg : mfind s.pendingLogins u with
    | none => exact hf
    | some pl2 =>
      by_cases hu2 : pl2.usedAt.isSome
      · simp only [hu2, if_true]
        exact hf
      · by_cases he2 : pl2.expiresAt < n
        · simp only [hu2, he2, Bool.false_eq_true, if_false, if_true]
          rw [mfind_mdel_ne _ _ _ hne]
          exact hf
        · by_cases hp2 : pl2.pinVerified
          · simp only [hu2, he2, hp2, Bool.false_eq_true, if_false,
              Bool.not_true]
            rw [mfind_mset_ne _ _ _ _ hne]
            exact hf
          · simp only [hu2, he2, hp2, Bool.false_eq_true, if_false,
              Bool.not_false, if_true]
            exact hf

theorem codeTrace_keeps_used (ops : List (Nat × String))
    (s : TokenServiceState) (h : String) (pl : PendingLogin)
    (hf : mfind s.pendingLogins h = some pl) (hu : pl.usedAt.isSome = true) :
    mfind ((codeTrace ops s).pendingLogins) h = some pl := by
  induction ops generalizing s with
  | nil => exact hf
  | cons op rest ih =>
    simp only [codeTrace, List.foldl_cons]
    exact ih _ (claimCode_keeps_used op.1 op.2 h s pl hf hu)

theorem claimCode_used_err (n : Nat) (h : String)
    (s : TokenServiceState) (pl : PendingLogin)
    (hf : mfind s.pendingLogins h = some pl) (hu : pl.usedAt.isSome = true) :
    (claimCode n h s).1 = .err "Code already used" := by
  unfold claimCode
  rw [hf]
  simp [hu]

/-! ## C2: consumption is permanent -/

/-- C2: for each credential kind — login token (verifyAndConsumeToken),
RID (claimPendingRID), claim code (claimCode) — once a consume call on a
secret succeeds, every subsequent consume call on the same secret, after
any further sequence of consume calls on arbitrary secrets, returns the
AlreadyUsed/AlreadyClaimed error and never succeeds again. -/
theorem C2_consume_is_permanent :
    (∀ (s : TokenServiceState) (n0 : Nat) (t : String) (i : Nat)
        (ops : List (Nat × String)) (n1 : Nat),
      (verifyAndConsumeToken n0 t s).1 = .ok i →
      (verifyAndConsumeToken n1 t
          (tokenTrace ops (verifyAndConsumeToken n0 t s).2)).1 =
        .err "Token already used")
    ∧ (∀ (s : TokenServiceState) (n0 : Nat) (r : String) (i : Nat)
        (ops : List (Nat × String)) (n1 : Nat),
      (claimPendingRID n0 r s).1 = .ok i →
      (claimPendingRID n1 r (ridTrace ops (claimPendingRID n0 r s).2)).1 =
        .err "RID already claimed")
    ∧ (∀ (s : TokenServiceState) (n0 : Nat) (h : String) (i : Nat)
        (ops : List (Nat × String)) (n1 : Nat),
      (claimCode n0 h s).1 = .ok i →
      (claimCode n1 h (codeTrace ops (claimCode n0 h s).2)).1 =
        .err "Code already used") := by
  refine ⟨?_, ?_, ?_⟩
  · intro s n0 t i ops n1 hok
    obtain ⟨lt, hf, hu⟩ := verifyAndConsumeToken_ok_marks_used n0 t s i hok
    exact verifyAndConsumeToken_used_err n1 t _ lt
      (tokenTrace_keeps_used ops _ t lt hf hu) hu
  · intro s n0 r i ops n1 hok
    obtain ⟨pr, hf, hc⟩ := claimPendingRID_ok_marks_claimed n0 r s i hok
    exact claimPendingRID_claimed_err n1 r _ pr
      (ridTrace_keeps_claimed ops _ r pr hf hc) hc
  · intro s n0 h i ops n1 hok
    obtain ⟨pl, hf, hu⟩ := claimCode_ok_marks_used n0 h s i hok
    exact claimCode_used_err n1 h _ pl
      (codeTrace_keeps_used ops _ h pl hf hu) hu

/-- C2 witness: concrete first-success instances for all three
credential kinds, with an interleaved consume of another secret,
followed by the already-used answers. -/
theorem C2_consume_is_permanent_witness :
    (verifyAndConsumeToken 5 "t"
        ⟨[("t", ⟨"t", 7, 0, 300000, false⟩)], [], [], []⟩).1 = .ok 7
    ∧ (verifyAndConsumeToken 9 "t"
        (tokenTrace [(6, "x")]
          (verifyAndConsumeToken 5 "t"
            ⟨[("t", ⟨"t", 7, 0, 300000, false⟩)], [], [], []⟩).2)).1 =
      .err "Token already used"
    ∧ (claimPendingRID 5 "r"
        ⟨[], [("r", ⟨"r", 8, 0, 900000, false, none, none⟩)], [], []⟩).1 = .ok 8
    ∧ (claimPendingRID 9 "r"
        (ridTrace [(6, "y")]
          (claimPendingRID 5 "r"
            ⟨[], [("r", ⟨"r", 8, 0, 900000, false, none, none⟩)], [], []⟩).2)).1 =
      .err "RID already claimed"
    ∧ (claimCode 5 "h"
        ⟨[], [], [("h", ⟨"C", "h", 9, 0, 900000, true, none⟩)], []⟩).1 = .ok 9
    ∧ (claimCode 9 "h"
        (codeTrace [(6, "z")]
          (claimCode 5 "h"
            ⟨[], [], [("h", ⟨"C", "h", 9, 0, 900000, true, none⟩)], []⟩).2)).1 =
      .err "Code already used" :=
  ⟨by decide,
    C2_consume_is_permanent.1 ⟨[("t", ⟨"t", 7, 0, 300000, false⟩)], [], [], []⟩
      5 "t" 7 [(6, "x")] 9 (by decide),
    by decide,
    C2_consume_is_permanent.2.1
      ⟨[], [("r", ⟨"r", 8, 0, 900000, false, none, none⟩)], [], []⟩
      5 "r" 8 [(6, "y")] 9 (by decide),
    by decide,
    C2_consume_is_permanent.2.2
      ⟨[], [], [("h", ⟨"C", "h", 9, 0, 900000, true, none⟩)], []⟩
      5 "h" 9 [(6, "z")] 9 (by decide)⟩

/-! ## C3: two-phase claim-code redemption -/

/-- C3: for a freshly generated, unexpired claim code, redeeming before
verifyPin returns the NotPinVerified error; after verifyPin (which
returns the display code) the first redemption with the correct hash
returns the subject id, and any later redemption — after any further
sequence of claimCode calls — fails with the AlreadyUsed error. -/
theorem C3_claim_code_two_phase :
    ∀ (s : TokenServiceState) (n0 : Nat) (code h : String) (tid : Nat)
      (n1 n2 n3 n4 : Nat) (ops : List (Nat × String)),
      n1 ≤ n0 + claimCodeTTL → n2 ≤ n0 + claimCodeTTL →
      n3 ≤ n0 + claimCodeTTL →
      (claimCode n1 h (generateClaimCode n0 code h tid s)).1 =
          .err "Code not verified"
      ∧ (verifyPin n2 h (generateClaimCode n0 code h tid s)).1 = .ok code
      ∧ (claimCode n3 h
            (verifyPin n2 h (generateClaimCode n0 code h tid s)).2).1 = .ok tid
      ∧ (claimCode n4 h (codeTrace ops
            (claimCode n3 h
              (verifyPin n2 h (generateClaimCode n0 code h tid s)).2).2)).1 =
          .err "Code already used" := by
  intro s n0 code h tid n1 n2 n3 n4 ops h1 h2 h3
  have hne1 : ¬ ((n0 + claimCodeTTL) < n1) := Nat.not_lt.mpr h1
  have hne2 : ¬ ((n0 + claimCodeTTL) < n2) := Nat.not_lt.mpr h2
  have hne3 : ¬ ((n0 + claimCodeTTL) < n3) := Nat.not_lt.mpr h3
  have hf1 : mfind (generateClaimCode n0 code h tid s).pendingLogins h =
      some { claimCode := code, claimCodeHash := h, telegramId := tid,
             createdAt := n0, expiresAt := n0 + claimCodeTTL,
             pinVerified := false, usedAt := none } :=
    mfind_mset_self _ _ _
  have part1 : (claimCode n1 h (generateClaimCode n0 code h tid s)).1 =
      .err "Code not verified" := by
    unfold claimCode
    rw [hf1]
    simp [hne1]
  have part2 : (verifyPin n2 h (generateClaimCode n0 code h tid s)).1 =
      .ok code := by
    unfold verifyPin
    rw [hf1]
    simp [hne2]
  have hf2 : mfind
      ((verifyPin n2 h (generateClaimCode n0 code h tid s)).2).pendingLogins
      h =
      some { claimCode := code, claimCodeHash := h, telegramId := tid,
             createdAt := n0, expiresAt := n0 + claimCodeTTL,
             pinVerified := true, usedAt := none } := by
    unfold verifyPin
    rw [hf1]
    simp [hne2, mfind_mset_self]
  have part3 : (claimCode n3 h
      (verifyPin n2 h (generateClaimCode n0 code h tid s)).2).1 = .ok tid := by
    unfold claimCode
    rw [hf2]
    simp [hne3]
  have part4 : (claimCode n4 h (codeTrace ops
      (claimCode n3 h
        (verifyPin n2 h (generateClaimCode n0 code h tid s)).2).2)).1 =
      .err "Code already used" := by
    obtain ⟨pl, hfp, hup⟩ := claimCode_ok_marks_used n3 h _ tid part3
    exact claimCode_used_err n4 h _ pl
      (codeTrace_keeps_used ops _ h pl hfp hup) hup
  exact ⟨part1, part2, part3, part4⟩

/-- C3 witness: the spec's own scenario — code AB7K-39 for subject 7 —
run at concrete times inside the TTL. -/
theorem C3_claim_code_two_phase_witness :
    (claimCode 1 "h" (generateClaimCode 0 "AB7K-39" "h" 7 ⟨[], [], [], []⟩)).1 =
        .err "Code not verified"
    ∧ (verifyPin 2 "h"
        (generateClaimCode 0 "AB7K-39" "h" 7 ⟨[], [], [], []⟩)).1 =
      .ok "AB7K-39"
    ∧ (claimCode 3 "h"
        (verifyPin 2 "h"
          (generateClaimCode 0 "AB7K-39" "h" 7 ⟨[], [], [], []⟩)).2).1 = .ok 7
    ∧ (claimCode 4 "h" (codeTrace []
        (claimCode 3 "h"
          (verifyPin 2 "h"
            (generateClaimCode 0 "AB7K-39" "h" 7 ⟨[], [], [], []⟩)).2).2)).1 =
      .err "Code already used" :=
  C3_claim_code_two_phase ⟨[], [], [], []⟩ 0 "AB7K-39" "h" 7 1 2 3 4 []
    (by decide) (by decide) (by decide)

/-! ## Sweep-survival helpers -/

theorem cleanupTick_keeps_unused_token (m : Nat) (s : TokenServiceState)
    (t : String) (lt : LoginToken)
    (hf : mfind s.tokens t = some lt) (hu : lt.used = false) :
    mfind (cleanupTick m s).tokens t = some lt := by
  have hk : (fun p : String × LoginToken => ! tokenSwept m p.2) (t, lt) = true := by
    simp [tokenSwept, hu]
  exact mfind_filter_keep _ s.tokens t lt hf hk

theorem cleanupTicks_keeps_unused_token (ticks : List Nat)
    (s : TokenServiceState) (t : String) (lt : LoginToken)
    (hf : mfind s.tokens t = some lt) (hu : lt.used = false) :
    mfind (cleanupTicks ticks s).tokens t = some lt := by
  induction ticks generalizing s with
  | nil => exact hf
  | cons m rest ih =>
    simp only [cleanupTicks, List.foldl_cons]
    exact ih _ (cleanupTick_keeps_unused_token m s t lt hf hu)

theorem cleanupTick_keeps_unclaimed_rid (m : Nat) (s : TokenServiceState)
    (r : String) (pr : PendingRID)
    (hf : mfind s.pendingRIDs r = some pr) (hc : pr.claimed = false) :
    mfind (cleanupTick m s).pendingRIDs r = some pr := by
  have hk : (fun p : String × PendingRID => ! ridSwept m p.2) (r, pr) = true := by
    simp [ridSwept, hc]
  exact mfind_filter_keep _ s.pendingRIDs r pr hf hk

theorem cleanupTicks_keeps_unclaimed_rid (ticks : List Nat)
    (s : TokenServiceState) (r : String) (pr : PendingRID)
    (hf : mfind s.pendingRIDs r = some pr) (hc : pr.claimed = false) :
    mfind (cleanupTicks ticks s).pendingRIDs r = some pr := by
  induction ticks generalizing s with
  | nil => exact hf
  | cons m rest ih =>
    simp only [cleanupTicks, List.foldl_cons]
    exact ih _ (cleanupTick_keeps_unclaimed_rid m s r pr hf hc)

theorem cleanupTick_keeps_live_login (m : Nat) (s : TokenServiceState)
    (h : String) (pl : PendingLogin)
    (hf : mfind s.pendingLogins h = some pl) (hm : ¬ pl.expiresAt < m) :
    mfind (cleanupTick m s).pendingLogins h = some pl := by
  have hk : (fun p : String × PendingLogin => ! loginSwept m p.2) (h, pl) = true := by
    simp [loginSwept, hm]
  exact mfind_filter_keep _ s.pendingLogins h pl hf hk

theorem cleanupTicks_keeps_live_login (ticks : List Nat)
    (s : TokenServiceState) (h : String) (pl : PendingLogin)
    (hf : mfind s.pendingLogins h = some pl)
    (hb : ∀ m ∈ ticks, ¬ pl.expiresAt < m) :
    mfind (cleanupTicks ticks s).pendingLogins h = some pl := by
  induction ticks generalizing s with
  | nil => exact hf
  | cons m rest ih =>
    simp only [cleanupTicks, List.foldl_cons]
    exact ih _
      (cleanupTick_keeps_live_login m s h pl hf (hb m (by simp)))
      (fun m2 hm2 => hb m2 (by simp [hm2]))

theorem ridCleanupTick_keeps_unused (m : Nat) (q : RidServiceState)
    (r : String) (rq : RequestId)
    (hf : mfind q.rids r = some rq) (hu : rq.used = false) :
    mfind (ridCleanupTick m q).rids r = some rq := by
  have hk : (fun p : String × RequestId => ! requestSwept m p.2) (r, rq) = true := by
    simp [requestSwept, hu]
  exact mfind_filter_keep _ q.rids r rq hf hk

theorem ridCleanupTicks_keeps_unused (ticks : List Nat) (q : RidServiceState)
    (r : String) (rq : RequestId)
    (hf : mfind q.rids r = some rq) (hu : rq.used = false) :
    mfind (ridCleanupTicks ticks q).rids r = some rq := by
  induction ticks generalizing q with
  | nil => exact hf
  | cons m rest ih =>
    simp only [ridCleanupTicks, List.foldl_cons]
    exact ih _ (ridCleanupTick_keeps_unused m q r rq hf hu)

/-! ## Lazy-expiry helpers -/

theorem verifyAndConsumeToken_expired (now : Nat) (t : String)
    (s : TokenServiceState) (lt : LoginToken)
    (hf : mfind s.tokens t = some lt) (hu : lt.used = false)
    (he : lt.expiresAt < now) :
    (verifyAndConsumeToken now t s).1 = .err "Token expired"
    ∧ mfind ((verifyAndConsumeToken now t s).2).tokens t = none := by
  unfold verifyAndConsumeToken
  rw [hf]
  simp [hu, he, mfind_mdel_self]

theorem claimPendingRID_expired (now : Nat) (r : String)
    (s : TokenServiceState) (pr : PendingRID)
    (hf : mfind s.pendingRIDs r = some pr) (hc : pr.claimed = false)
    (he : pr.expiresAt < now) :
    (claimPendingRID now r s).1 = .err "RID expired"
    ∧ mfind ((claimPendingRID now r s).2).pendingRIDs r = none := by
  unfold claimPendingRID
  rw [hf]
  simp [hc, he, saveRIDsToFile, mfind_mdel_self]

theorem claimCode_expired (now : Nat) (h : String)
    (s : TokenServiceState) (pl : PendingLogin)
    (hf : mfind s.pendingLogins h = some pl) (hu : pl.usedAt = none)
    (he : pl.expiresAt < now) :
    (claimCode now h s).1 = .err "Code expired"
    ∧ mfind ((claimCode now h s).2).pendingLogins h = none := by
  unfold claimCode
  rw [hf]
  simp [hu, he, mfind_mdel_self]

theorem verifyAndConsumeRid_expired (now : Nat) (r : String)
    (q : RidServiceState) (rq : RequestId)
    (hf : mfind q.rids r = some rq) (hu : rq.used = false)
    (he : rq.expiresAt < now) :
    (verifyAndConsumeRid now r q).1 = .err "RID expired"
    ∧ mfind ((verifyAndConsumeRid now r q).2).rids r = none := by
  unfold verifyAndConsumeRid
  rw [hf]
  simp [hu, he, mfind_mdel_self]

/-! ## C5: late consumption of never-consumed credentials -/

/-- C5 counterexample: the claim fails for claim codes once a
garbage-collection tick runs after expiry.  A never-consumed claim code
expiring at 10 is removed by the tick at 11 (the sweep deletes expired
codes regardless of consumption), so the consume attempt at 12 answers
NotFound instead of Expired. -/
theorem C5_counterexample_gc_makes_notfound :
    (⟨"AB", "h", 7, 0, 10, false, none⟩ : PendingLogin).usedAt = none
    ∧ (10 : Nat) < 12
    ∧ (claimCode 12 "h"
        (cleanupTick 11 ⟨[], [], [("h", ⟨"AB", "h", 7, 0, 10, false, none⟩)], []⟩)).1 =
      .err "Code not found"
    ∧ (ConsumeResult.err "Code not found") ≠ .err "Code expired" :=
  ⟨by decide, by decide, by decide, by decide⟩

/-- C5 (amended): a consume call made after expiresAt on a credential
that was issued and never consumed returns the Expired error and evicts
the entry at that lookup, regardless of intervening garbage-collection
ticks — for login tokens, TokenService RIDs and RidService request ids
unconditionally, and for claim codes only when every intervening tick
ran at or before the code's expiresAt (a later tick evicts the unused
code and turns the answer into NotFound). -/
theorem C5_lazy_expiry_amended :
    (∀ (s0 : TokenServiceState) (n0 : Nat) (t : String) (tid : Nat)
        (ticks : List Nat) (now : Nat),
      n0 + tokenTTL < now →
      (verifyAndConsumeToken now t
          (cleanupTicks ticks (generateLoginToken n0 t tid s0))).1 =
        .err "Token expired"
      ∧ mfind ((verifyAndConsumeToken now t
          (cleanupTicks ticks (generateLoginToken n0 t tid s0))).2).tokens t =
        none)
    ∧ (∀ (s0 : TokenServiceState) (n0 : Nat) (r : String) (tid : Nat)
        (ip : Option String) (ticks : List Nat) (now : Nat),
      n0 + ridTTL < now →
      (claimPendingRID now r
          (cleanupTicks ticks (generatePendingRID n0 r tid ip s0))).1 =
        .err "RID expired"
      ∧ mfind ((claimPendingRID now r
          (cleanupTicks ticks (generatePendingRID n0 r tid ip s0))).2).pendingRIDs
          r = none)
    ∧ (∀ (s0 : TokenServiceState) (n0 : Nat) (code h : String) (tid : Nat)
        (ticks : List Nat) (now : Nat),
      (∀ m ∈ ticks, m ≤ n0 + claimCodeTTL) → n0 + claimCodeTTL < now →
      (claimCode now h
          (cleanupTicks ticks (generateClaimCode n0 code h tid s0))).1 =
        .err "Code expired"
      ∧ mfind ((claimCode now h
          (cleanupTicks ticks (generateClaimCode n0 code h tid s0))).2).pendingLogins
          h = none)
    ∧ (∀ (q0 : RidServiceState) (n0 : Nat) (r : String) (tid : Nat)
        (intent : String) (ctx : Option String) (ticks : List Nat) (now : Nat),
      n0 + ridTTL < now →
      (verifyAndConsumeRid now r
          (ridCleanupTicks ticks (generateRid n0 r tid intent ctx q0))).1 =
        .err "RID expired"
      ∧ mfind ((verifyAndConsumeRid now r
          (ridCleanupTicks ticks (generateRid n0 r tid intent ctx q0))).2).rids
          r = none) := by
  refine ⟨?_, ?_, ?_, ?_⟩
  · intro s0 n0 t tid ticks now hnow
    have hf0 : mfind (generateLoginToken n0 t tid s0).tokens t =
        some { token := t, telegramId := tid, createdAt := n0,
               expiresAt := n0 + tokenTTL, used := false } :=
      mfind_mset_self _ _ _
    have hf1 := cleanupTicks_keeps_unused_token ticks _ t _ hf0 rfl
    exact verifyAndConsumeToken_expired now t _ _ hf1 rfl hnow
  · intro s0 n0 r tid ip ticks now hnow
    have hf0 : mfind (generatePendingRID n0 r tid ip s0).pendingRIDs r =
        some { rid := r, telegramId := tid, createdAt := n0,
               expiresAt := n0 + ridTTL, claimed := false, claimedAt := none,
               clientIp := ip } :=
      mfind_mset_self _ _ _
    have hf1 := cleanupTicks_keeps_unclaimed_rid ticks _ r _ hf0 rfl
    exact claimPendingRID_expired now r _ _ hf1 rfl hnow
  · intro s0 n0 code h tid ticks now hticks hnow
    have hf0 : mfind (generateClaimCode n0 code h tid s0).pendingLogins h =
        some { claimCode := code, claimCodeHash := h, telegramId := tid,
               createdAt := n0, expiresAt := n0 + claimCodeTTL,
               pinVerified := false, usedAt := none } :=
      mfind_mset_self _ _ _
    have hf1 := cleanupTicks_keeps_live_login ticks _ h _ hf0
      (fun m hm => Nat.not_lt.mpr (hticks m hm))
    exact claimCode_expired now h _ _ hf1 rfl hnow
  · intro q0 n0 r tid intent ctx ticks now hnow
    have hf0 : mfind (generateRid n0 r tid intent ctx q0).rids r =
        some { rid := r, telegramId := tid, createdAt := n0,
               expiresAt := n0 + ridTTL, used := false, intent := intent,
               context := ctx } :=
      mfind_mset_self _ _ _
    have hf1 := ridCleanupTicks_keeps_unused ticks _ r _ hf0 rfl
    exact verifyAndConsumeRid_expired now r _ _ hf1 rfl hnow

/-- C5 witness: concrete never-consumed credentials of all four
registries, consumed after their TTLs with garbage-collection ticks in
between, answer Expired and are evicted. -/
theorem C5_lazy_expiry_amended_witness :
    ((0 : Nat) + tokenTTL < 300001
      ∧ (verifyAndConsumeToken 300001 "t"
          (cleanupTicks [100, 400000] (generateLoginToken 0 "t" 7
            ⟨[], [], [], []⟩))).1 = .err "Token expired")
    ∧ ((0 : Nat) + ridTTL < 900001
      ∧ (claimPendingRID 900001 "r"
          (cleanupTicks [100, 950000] (generatePendingRID 0 "r" 8 none
            ⟨[], [], [], []⟩))).1 = .err "RID expired")
    ∧ ((∀ m ∈ [100, 200], m ≤ (0 : Nat) + claimCodeTTL)
      ∧ (claimCode 900001 "h"
          (cleanupTicks [100, 200] (generateClaimCode 0 "AB" "h" 9
            ⟨[], [], [], []⟩))).1 = .err "Code expired")
    ∧ ((0 : Nat) + ridTTL < 900001
      ∧ (verifyAndConsumeRid 900001 "q"
          (ridCleanupTicks [100, 950000] (generateRid 0 "q" 11 "auth" none
            ⟨[], []⟩))).1 = .err "RID expired") :=
  ⟨⟨by decide,
      (C5_lazy_expiry_amended.1 ⟨[], [], [], []⟩ 0 "t" 7 [100, 400000] 300001
        (by decide)).1⟩,
    ⟨by decide,
      (C5_lazy_expiry_amended.2.1 ⟨[], [], [], []⟩ 0 "r" 8 none [100, 950000]
        900001 (by decide)).1⟩,
    ⟨by decide,
      (C5_lazy_expiry_amended.2.2.1 ⟨[], [], [], []⟩ 0 "AB" "h" 9 [100, 200]
        900001 (by decide) (by decide)).1⟩,
    ⟨by decide,
      (C5_lazy_expiry_amended.2.2.2 ⟨[], []⟩ 0 "q" 11 "auth" none [100, 950000]
        900001 (by decide)).1⟩⟩

/-! ## Rate-limiter window invariant -/

theorem rlStateAfter_invariant (o : RateLimitOptions) (key : String)
    (times : Nat → Nat)
    (hwin : ∀ j, times j < times 0 + o.windowMs) :
    ∀ k, mfind (rlStateAfter o key times (k + 1)) key =
      some ⟨k + 1, times 0 + o.windowMs⟩ := by
  intro k
  induction k with
  | zero =>
    show mfind (rlStep o (times 0) key []).2 key = _
    simp [rlStep, mfind, mset]
  | succ k ih =>
    have hstep : rlStateAfter o key times (k + 1 + 1) =
        (rlStep o (times (k + 1)) key (rlStateAfter o key times (k + 1))).2 :=
      rfl
    rw [hstep]
    unfold rlStep
    rw [ih]
    have h1 : ¬ ((⟨k + 1, times 0 + o.windowMs⟩ : RateLimitEntry).resetAt ≤
        times (k + 1)) :=
      Nat.not_le.mpr (hwin (k + 1))
    by_cases hm : o.maxRequests < k + 1 + 1 <;>
      simp [h1, hm, mfind_mset_self]

/-! ## C7: fixed-window admission -/

/-- C7: for a key whose requests all fall inside the first window
(every request time is below resetAt = firstRequestTime + windowMs) and
a configured maximum of at least one, the limiter allows exactly the
first maxRequests requests; the (maxRequests+1)-th and all later
requests in the window are denied with retry_after =
ceil((resetAt - now)/1000); and any request at or after resetAt is
allowed again with a fresh count of 1. -/
theorem C7_fixed_window_admission :
    ∀ (o : RateLimitOptions) (key : String) (times : Nat → Nat),
      1 ≤ o.maxRequests →
      (∀ j, times j < times 0 + o.windowMs) →
      (∀ k, k + 1 ≤ o.maxRequests → rlDecisionAt o key times k = .allowed)
      ∧ (∀ k, o.maxRequests < k + 1 →
          rlDecisionAt o key times k =
            .denied ((times 0 + o.windowMs - times k + 999) / 1000))
      ∧ (∀ (k t2 : Nat), times 0 + o.windowMs ≤ t2 →
          rlStep o t2 key (rlStateAfter o key times (k + 1)) =
            (.allowed,
              mset (rlStateAfter o key times (k + 1)) key
                ⟨1, t2 + o.windowMs⟩)) := by
  intro o key times hmax hwin
  refine ⟨?_, ?_, ?_⟩
  · intro k hk
    cases k with
    | zero =>
      show (rlStep o (times 0) key []).1 = .allowed
      simp [rlStep, mfind]
    | succ k =>
      show (rlStep o (times (k + 1)) key
        (rlStateAfter o key times (k + 1))).1 = .allowed
      unfold rlStep
      rw [rlStateAfter_invariant o key times hwin k]
      have h1 : ¬ ((⟨k + 1, times 0 + o.windowMs⟩ : RateLimitEntry).resetAt ≤
          times (k + 1)) :=
        Nat.not_le.mpr (hwin (k + 1))
      have hm : ¬ (o.maxRequests < k + 1 + 1) := Nat.not_lt.mpr hk
      simp [h1, hm]
  · intro k hk
    cases k with
    | zero => omega
    | succ k =>
      show (rlStep o (times (k + 1)) key
        (rlStateAfter o key times (k + 1))).1 = _
      unfold rlStep
      rw [rlStateAfter_invariant o key times hwin k]
      have h1 : ¬ ((⟨k + 1, times 0 + o.windowMs⟩ : RateLimitEntry).resetAt ≤
          times (k + 1)) :=
        Nat.not_le.mpr (hwin (k + 1))
      simp [h1, hk]
  · intro k t2 ht2
    unfold rlStep
    rw [rlStateAfter_invariant o key times hwin k]
    simp [ht2]

/-- C7 witness: with maxRequests = 2 and all requests at time 5 in a
60000 ms window, request 2 (0-based 1) is allowed, request 3 is denied
with retry_after 60, and a request at 70000 — past resetAt — is allowed
with a fresh count. -/
theorem C7_fixed_window_admission_witness :
    rlDecisionAt ⟨60000, 2⟩ "k" (fun _ => 5) 1 = .allowed
    ∧ rlDecisionAt ⟨60000, 2⟩ "k" (fun _ => 5) 2 = .denied 60
    ∧ rlStep ⟨60000, 2⟩ 70000 "k" (rlStateAfter ⟨60000, 2⟩ "k" (fun _ => 5) 3) =
      (.allowed,
        mset (rlStateAfter ⟨60000, 2⟩ "k" (fun _ => 5) 3) "k" ⟨1, 130000⟩) := by
  obtain ⟨h1, h2, h3⟩ := C7_fixed_window_admission ⟨60000, 2⟩ "k" (fun _ => 5)
    (by decide) (fun _ => by norm_num)
  exact ⟨h1 1 (by decide), h2 2 (by decide), h3 2 70000 (by decide)⟩

/-! ## C10: flushes empty the in-memory audit buffer -/

/-- C10: every flush leaves the in-memory audit buffer empty, and
logging any of the security-critical actions (auth_verified,
auth_failed, invalid_signature, rate_limited) triggers that flush
immediately, so right after such a log call getRecent and getForUser
return nothing at all — in particular no entry logged before the flush;
the buffer is not a persistent ring of the last 1000 entries across
flushes. -/
theorem C10_flush_empties_buffer :
    (∀ s : AuditLogState, (AuditLog.flush s).inMemoryLogs = [])
    ∧ (∀ (s : AuditLogState) (e : AuditEntry),
        criticalActions.contains e.action = true →
        (AuditLog.log e s).inMemoryLogs = []
        ∧ (∀ n, AuditLog.getRecent n (AuditLog.log e s) = [])
        ∧ (∀ tid n, AuditLog.getForUser tid n (AuditLog.log e s) = [])) := by
  have hflush : ∀ s : AuditLogState, (AuditLog.flush s).inMemoryLogs = [] := by
    intro s
    unfold AuditLog.flush
    by_cases h : s.inMemoryLogs.isEmpty
    · simp only [h, if_true]
      exact List.isEmpty_iff.mp h
    · simp [h]
  refine ⟨hflush, ?_⟩
  intro s e hcrit
  have hmem : (AuditLog.log e s).inMemoryLogs = [] := by
    unfold AuditLog.log
    simp only [hcrit, if_true]
    exact hflush _
  refine ⟨hmem, ?_, ?_⟩
  · intro n
    unfold AuditLog.getRecent
    rw [hmem]
    simp
  · intro tid n
    unfold AuditLog.getForUser
    rw [hmem]
    simp

/-- C10 witness: logging a concrete auth_verified entry over a nonempty
buffer empties it and makes both read operations return nothing. -/
theorem C10_flush_empties_buffer_witness :
    criticalActions.contains "auth_verified" = true
    ∧ (AuditLog.log ⟨50, "auth_verified", some 7, none, "success", none, none, none⟩
        ⟨[⟨1, "x", some 7, none, "success", none, none, none⟩], []⟩).inMemoryLogs = []
    ∧ AuditLog.getRecent 100
        (AuditLog.log ⟨50, "auth_verified", some 7, none, "success", none, none, none⟩
          ⟨[⟨1, "x", some 7, none, "success", none, none, none⟩], []⟩) = []
    ∧ AuditLog.getForUser 7 50
        (AuditLog.log ⟨50, "auth_verified", some 7, none, "success", none, none, none⟩
          ⟨[⟨1, "x", some 7, none, "success", none, none, none⟩], []⟩) = [] := by
  obtain ⟨hm, hr, hu⟩ := C10_flush_empties_buffer.2
    ⟨[⟨1, "x", some 7, none, "success", none, none, none⟩], []⟩
    ⟨50, "auth_verified", some 7, none, "success", none, none, none⟩
    (by decide)
  exact ⟨by decide, hm, hr 100, hu 7 50⟩
